import Mathlib

/-!
Shallow embedding of `src/shared/src/lib.rs` from the repository
Compute-Engine-Example-Graphics-Pipeline.

The program is a single linear function `entrypoint` that sets up Vulkan
objects (vertex buffer, output buffer, shaders, render pass, image,
framebuffer, graphics pipeline), records one command buffer with six
commands, submits it, reads the output buffer back and saves it as
`triangle.png`.

Modelling choices:
* `f32` literals in the source (`-0.5`, `0.5`, `-0.25`, `0.0`, `1.0`,
  `1024.0`) are all exactly representable dyadic rationals, and the program
  performs no floating-point arithmetic on them (they are only stored in
  configuration records), so positions, clear colors and viewport data are
  embedded as `Rat`.
* Every fallible call (`unwrap` / `expect`) whose success depends on the
  external GPU driver is governed by a boolean flag in an environment
  record `Env`; a `false` flag makes the embedded run stop at that step,
  mirroring the panic.  Calls whose success is decided by data in this file
  (`entry_point ("main")`, `Subpass::from(render_pass, 0)`,
  `ImageBuffer::from_raw`) are embedded as the real `Option`-returning
  checks.
* The GPU itself (the semantics of the submitted commands, i.e. of the two
  external shader assets plus rasterization) is a parameter
  `gpu : List Command → Nat → Nat` giving the byte content of the output
  buffer after the submitted command list has executed.
-/

namespace TrianglePipeline

/-- `math::Vertex`: one 2-D position, two `f32` components (exact dyadic
rationals here). -/
structure Vertex where
  position : Rat × Rat

/-- The subset of `vulkano::buffer::BufferUsage` flags relevant to the
source file; `Default::default()` sets every flag to `false`. -/
structure BufferUsage where
  transfer_src : Bool := false
  transfer_dst : Bool := false
  uniform_texel_buffer : Bool := false
  storage_texel_buffer : Bool := false
  uniform_buffer : Bool := false
  storage_buffer : Bool := false
  index_buffer : Bool := false
  vertex_buffer : Bool := false
  indirect_buffer : Bool := false

/-- `vulkano::buffer::CpuAccessibleBuffer::from_iter`: the buffer keeps the
usage flags, the `host_cached` boolean and the collected data.  The device
argument is owned by the external engine and carries no information used by
this file. -/
structure CpuAccessibleBuffer (α : Type) where
  usage : BufferUsage
  host_cached : Bool
  data : List α

/-- `vulkano::format::Format` (the two 8-bit RGBA variants suffice to make
format equations non-trivial; the source only ever uses
`R8G8B8A8_UNORM`). -/
inductive Format where
  | R8G8B8A8_UNORM
  | R8G8B8A8_SRGB

/-- Attachment load operation of the render-pass macro. -/
inductive LoadOp where
  | Clear
  | Load
  | DontCare

/-- Attachment store operation of the render-pass macro. -/
inductive StoreOp where
  | Store
  | DontCare

/-- One attachment description of
`vulkano::single_pass_renderpass!`. -/
structure AttachmentDesc where
  load : LoadOp
  store : StoreOp
  format : Format
  samples : Nat

/-- One subpass description: indices of color attachments and an optional
depth/stencil attachment index. -/
structure SubpassDesc where
  color_attachments : List Nat
  depth_stencil_attachment : Option Nat

/-- A render pass: attachment list plus subpass list (the
`single_pass_renderpass!` macro produces exactly one subpass). -/
structure RenderPass where
  attachments : List AttachmentDesc
  subpasses : List SubpassDesc

/-- `vulkano::image::ImageDimensions` (only the `Dim2d` variant is used). -/
inductive ImageDimensions where
  | Dim2d (width height array_layers : Nat)

/-- `vulkano::image::StorageImage`: dimensions, format, and the queue
family index handed over from the engine. -/
structure StorageImage where
  dimensions : ImageDimensions
  format : Format
  queue_family : Option Nat

/-- `vulkano::image::view::ImageView::new_default`. -/
structure ImageView where
  image : StorageImage

/-- `vulkano::render_pass::Framebuffer::new` with
`FramebufferCreateInfo { attachments, ..Default::default() }`. -/
structure Framebuffer where
  render_pass : RenderPass
  attachments : List ImageView

/-- `vulkano::pipeline::graphics::viewport::Viewport`. -/
structure Viewport where
  origin : Rat × Rat
  dimensions : Rat × Rat
  depth_range : Rat × Rat

/-- `ViewportState::viewport_fixed_scissor_irrelevant([viewport])`: a fixed
list of viewports baked into the pipeline. -/
inductive ViewportState where
  | viewport_fixed_scissor_irrelevant (viewports : List Viewport)

/-- The vertex type registered with
`BuffersDefinition::new().vertex::<Vertex>()`: a single per-vertex layout
with one 2-component `f32` position attribute. -/
inductive VertexTypeTag where
  | vertexPos2

/-- `vulkano::pipeline::graphics::vertex_input::BuffersDefinition`. -/
structure BuffersDefinition where
  vertex_types : List VertexTypeTag

/-- `BuffersDefinition::new()`. -/
def BuffersDefinition.new : BuffersDefinition := ⟨[]⟩

/-- `BuffersDefinition::vertex::<V>()` appends one per-vertex layout. -/
def BuffersDefinition.vertex (b : BuffersDefinition) (t : VertexTypeTag) :
    BuffersDefinition :=
  ⟨b.vertex_types ++ [t]⟩

/-- Primitive topology; `InputAssemblyState::new()` defaults to a triangle
list. -/
inductive PrimitiveTopology where
  | TriangleList
  | TriangleStrip

/-- `vulkano::pipeline::graphics::input_assembly::InputAssemblyState`. -/
structure InputAssemblyState where
  topology : PrimitiveTopology

/-- `InputAssemblyState::new()`: default topology is `TriangleList`. -/
def InputAssemblyState.new : InputAssemblyState := ⟨.TriangleList⟩

/-- The shader stage of a module. -/
inductive ShaderStage where
  | vertexStage
  | fragmentStage

/-- Modelled from the spec: the two shader source files
(`src/shader.vert`, `src/shader.frag`) are external assets that are not
part of `src/`; per the spec they are "treated as an external asset with
one entry point each named `main`".  A compiled module records its stage
and its entry-point names. -/
structure ShaderModule where
  stage : ShaderStage
  entry_points : List String

/-- A resolved shader entry point, as returned by
`ShaderModule::entry_point`. -/
structure ShaderEntryPoint where
  stage : ShaderStage
  name : String

/-- `ShaderModule::entry_point(name)`: `Some` exactly when the module has
an entry point of that name. -/
def ShaderModule.entry_point (m : ShaderModule) (n : String) :
    Option ShaderEntryPoint :=
  if n ∈ m.entry_points then some ⟨m.stage, n⟩ else none

/-- The compiled vertex shader module (`shader_vertex::load`). -/
def shader_vertex_module : ShaderModule := ⟨.vertexStage, [ "main"]⟩

/-- The compiled fragment shader module (`shader_fragment::load`). -/
def shader_fragment_module : ShaderModule := ⟨.fragmentStage, [ "main"]⟩

/-- A subpass reference, `vulkano::render_pass::Subpass`. -/
structure Subpass where
  render_pass : RenderPass
  index : Nat

/-- `Subpass::from(render_pass, index)`: `Some` exactly when the index is
in range. -/
def Subpass.from (rp : RenderPass) (i : Nat) : Option Subpass :=
  if i < rp.subpasses.length then some ⟨rp, i⟩ else none

/-- The graphics pipeline assembled by the `GraphicsPipeline::start()`
builder chain of lines 139-155. -/
structure GraphicsPipeline where
  vertex_input : BuffersDefinition
  vertex_shader : ShaderEntryPoint
  input_assembly : InputAssemblyState
  viewport_state : ViewportState
  fragment_shader : ShaderEntryPoint
  subpass : Subpass

/-- A clear value for a color attachment
(`vulkano::format::ClearValue::Float`, produced by
`[0.0, 0.0, 1.0, 1.0].into()`). -/
inductive ClearValue where
  | Float (r g b a : Rat)

/-- `vulkano::command_buffer::SubpassContents`. -/
inductive SubpassContents where
  | Inline
  | SecondaryCommandBuffers

/-- The fields of `vulkano::command_buffer::RenderPassBeginInfo` that the
source sets: `clear_values` (overridden) and `framebuffer` (from
`RenderPassBeginInfo::framebuffer`). -/
structure RenderPassBeginInfo where
  clear_values : List (Option ClearValue)
  framebuffer : Framebuffer

/-- `RenderPassBeginInfo::framebuffer(fb)`: defaults `clear_values` to the
empty list. -/
def RenderPassBeginInfo.framebuffer_info (fb : Framebuffer) :
    RenderPassBeginInfo :=
  ⟨[], fb⟩

/-- `vulkano::command_buffer::CopyImageToBufferInfo::image_buffer`. -/
structure CopyImageToBufferInfo where
  image : StorageImage
  buffer : CpuAccessibleBuffer Nat

/-- One recorded command of the `AutoCommandBufferBuilder`, carrying the
exact argument values of the corresponding builder call in lines
166-190. -/
inductive Command where
  | beginRenderPass (info : RenderPassBeginInfo) (contents : SubpassContents)
  | bindPipelineGraphics (pipeline : GraphicsPipeline)
  | bindVertexBuffers (first_binding : Nat)
      (buffer : CpuAccessibleBuffer Vertex)
  | draw (vertex_count instance_count first_vertex first_instance : Nat)
  | endRenderPass
  | copyImageToBuffer (info : CopyImageToBufferInfo)

/-- The pixel type parameter of the `ImageBuffer` built at line 200:
`Rgba<u8>`. -/
inductive PixelFormat where
  | Rgba8

/-- The decoded image built by `ImageBuffer::<Rgba<u8>, _>::from_raw`. -/
structure PngImage where
  width : Nat
  height : Nat
  pixel_format : PixelFormat
  data : List Nat

/-- `ImageBuffer::from_raw(width, height, buf)`: `Some` exactly when the
container holds at least `width * height * 4` bytes (4 channels of
`Rgba<u8>`). -/
def ImageBuffer.from_raw (w h : Nat) (buf : List Nat) : Option PngImage :=
  if w * h * 4 ≤ buf.length then some ⟨w, h, .Rgba8, buf⟩ else none

/-- One file written by `image.save`; the path is relative, hence resolved
against the process working directory. -/
structure FileWrite where
  path : String
  image : PngImage

/-- Modelled from the spec: §4.1 treats engine/device acquisition
(`ComputeEngine::new`, crate `compute_engine`, not under `src/`) as a black
box exposing a ready device and queue.  The only datum the source file
reads from it besides the opaque device handle is the queue family
index. -/
structure ComputeEngine where
  queue_family_index : Nat

namespace Src

/-- Line 43-45: `let vertex1 = Vertex { position: [-0.5, -0.5] }`. -/
def vertex1 : Vertex := ⟨(-0.5, -0.5)⟩

/-- Line 46-48: `let vertex2 = Vertex { position: [0.0, 0.5] }`. -/
def vertex2 : Vertex := ⟨(0.0, 0.5)⟩

/-- Line 49-51: `let vertex3 = Vertex { position: [0.5, -0.25] }`. -/
def vertex3 : Vertex := ⟨(0.5, -0.25)⟩

/-- Lines 54-63: the vertex buffer, usage
`BufferUsage { vertex_buffer: true, ..Default::default() }`, `host_cached`
argument `false`, data `vec![vertex1, vertex2, vertex3]`. -/
def vertex_buffer : CpuAccessibleBuffer Vertex :=
  ⟨{ vertex_buffer := true }, false, [vertex1, vertex2, vertex3]⟩

/-- Lines 66-75: the output buffer, usage
`BufferUsage { transfer_dst: true, ..Default::default() }`, `host_cached`
argument `false`, data `(0..1024 * 1024 * 4).map(|_| 0u8)`. -/
def output_buffer : CpuAccessibleBuffer Nat :=
  ⟨{ transfer_dst := true }, false,
    (List.range (1024 * 1024 * 4)).map (fun _ => 0)⟩

/-- Lines 84-88: the fixed viewport. -/
def viewport : Viewport :=
  ⟨(0.0, 0.0), (1024.0, 1024.0), (0.0, 1.0)⟩

/-- Lines 92-107: `single_pass_renderpass!` with one color attachment
(`load: Clear, store: Store, format: R8G8B8A8_UNORM, samples: 1`) and one
subpass (`color: [color], depth_stencil: {}`). -/
def render_pass : RenderPass :=
  ⟨[⟨.Clear, .Store, .R8G8B8A8_UNORM, 1⟩],
   [⟨[0], none⟩]⟩

/-- Lines 110-120: the 1024×1024 `R8G8B8A8_UNORM` storage image, created
for the engine's queue family. -/
def image (engine : ComputeEngine) : StorageImage :=
  ⟨.Dim2d 1024 1024 1, .R8G8B8A8_UNORM, some engine.queue_family_index⟩

/-- Line 124: `ImageView::new_default(image.clone())`. -/
def view (engine : ComputeEngine) : ImageView := ⟨image engine⟩

/-- Lines 129-136: the framebuffer over the render pass with the single
image view as attachment. -/
def framebuffer (engine : ComputeEngine) : Framebuffer :=
  ⟨render_pass, [view engine]⟩

/-- Lines 139-155: the graphics pipeline builder chain, evaluated with the
deterministic entry-point and subpass lookups already resolved (the
fallibility of those lookups is replayed inside `entrypoint`). -/
def pipeline : GraphicsPipeline :=
  ⟨BuffersDefinition.new.vertex .vertexPos2,
   ⟨.vertexStage, "main"⟩,
   InputAssemblyState.new,
   .viewport_fixed_scissor_irrelevant [viewport],
   ⟨.fragmentStage, "main"⟩,
   ⟨render_pass, 0⟩⟩

/-- Lines 166-190: the six commands recorded into the
`AutoCommandBufferBuilder`, in recording order. -/
def recordedCommands (engine : ComputeEngine) : List Command :=
  [ .beginRenderPass
      { RenderPassBeginInfo.framebuffer_info (framebuffer engine) with
          clear_values := [some (.Float 0.0 0.0 1.0 1.0)] }
      .Inline
  , .bindPipelineGraphics pipeline
  , .bindVertexBuffers 0 vertex_buffer
  , .draw 3 1 0 0
  , .endRenderPass
  , .copyImageToBuffer ⟨image engine, output_buffer⟩ ]

/-- The bytes found in the output buffer by `output_buffer.read()` after
the GPU has executed the submitted commands: the buffer's size is fixed at
`1024 * 1024 * 4`, and the byte at each index is whatever the GPU left
there. -/
def readback (engine : ComputeEngine)
    (gpu : List Command → Nat → Nat) : List Nat :=
  (List.range (1024 * 1024 * 4)).map (gpu (recordedCommands engine))

/-- The program steps at which a `unwrap` / `expect` / external call can
end the run. -/
inductive Step where
  | engineNew
  | vertexBufferAlloc
  | outputBufferAlloc
  | vertexShaderLoad
  | fragmentShaderLoad
  | renderPassCreate
  | imageCreate
  | viewCreate
  | framebufferCreate
  | vertexEntryPoint
  | fragmentEntryPoint
  | subpassFrom
  | pipelineBuild
  | builderCreate
  | beginRenderPassCmd
  | drawCmd
  | endRenderPassCmd
  | copyCmd
  | cmdBufferBuild
  | submit
  | bufferRead
  | imageFromRaw
  | imageSave

/-- The environment of the run: one flag per fallible call whose outcome
is decided by the external driver/OS, `true` meaning the call succeeds.
Flags appear in program order. -/
structure Env where
  engineNewOk : Bool
  vertexBufferOk : Bool
  outputBufferOk : Bool
  vertexShaderOk : Bool
  fragmentShaderOk : Bool
  renderPassOk : Bool
  imageOk : Bool
  viewOk : Bool
  framebufferOk : Bool
  pipelineBuildOk : Bool
  builderOk : Bool
  beginRenderPassOk : Bool
  drawOk : Bool
  endRenderPassOk : Bool
  copyOk : Bool
  cmdBufferBuildOk : Bool
  submitOk : Bool
  readOk : Bool
  saveOk : Bool

/-- All external calls succeed. -/
def allOk (e : Env) : Bool :=
  e.engineNewOk && e.vertexBufferOk && e.outputBufferOk &&
  e.vertexShaderOk && e.fragmentShaderOk && e.renderPassOk && e.imageOk &&
  e.viewOk && e.framebufferOk && e.pipelineBuildOk && e.builderOk &&
  e.beginRenderPassOk && e.drawOk && e.endRenderPassOk && e.copyOk &&
  e.cmdBufferBuildOk && e.submitOk && e.readOk && e.saveOk

/-- The observable outcome of one run of `entrypoint`: the commands that
were recorded into the command buffer, whether the buffer was submitted
and completed, the files written, and the step at which the run panicked
(`none` on full success). -/
structure RunResult where
  commands : List Command
  submitted : Bool
  files : List FileWrite
  failedAt : Option Step

/-- `pub fn entrypoint()` of `src/shared/src/lib.rs`, lines 35-213.

The `engine` argument is the device/queue black box produced by
`ComputeEngine::new` (spec §4.1); `env` decides each driver-fallible call;
`gpu` gives the output-buffer bytes produced by executing the submitted
command list (the GPU semantics of the two external shader assets plus the
image-to-buffer copy).  Submission (`compute_engine.compute`) blocks until
completion, per spec §4.3. -/
def entrypoint (engine : ComputeEngine) (env : Env)
    (gpu : List Command → Nat → Nat) : RunResult :=
  if env.engineNewOk then
    if env.vertexBufferOk then
      if env.outputBufferOk then
        if env.vertexShaderOk then
          if env.fragmentShaderOk then
            if env.renderPassOk then
              if env.imageOk then
                if env.viewOk then
                  if env.framebufferOk then
                    match shader_vertex_module.entry_point "main" with
                    | none => ⟨[], false, [], some .vertexEntryPoint⟩
                    | some _ =>
                      match shader_fragment_module.entry_point "main" with
                      | none => ⟨[], false, [], some .fragmentEntryPoint⟩
                      | some _ =>
                        match Subpass.from render_pass 0 with
                        | none => ⟨[], false, [], some .subpassFrom⟩
                        | some _ =>
                          if env.pipelineBuildOk then
                            if env.builderOk then
                              if env.beginRenderPassOk then
                                if env.drawOk then
                                  if env.endRenderPassOk then
                                    if env.copyOk then
                                      if env.cmdBufferBuildOk then
                                        if env.submitOk then
                                          if env.readOk then
                                            match ImageBuffer.from_raw 1024 1024
                                                (readback engine gpu) with
                                            | none =>
                                              ⟨recordedCommands engine, true, [],
                                                some .imageFromRaw⟩
                                            | some img =>
                                              if env.saveOk then
                                                ⟨recordedCommands engine, true,
                                                  [⟨ "triangle.png", img⟩], none⟩
                                              else
                                                ⟨recordedCommands engine, true, [],
                                                  some .imageSave⟩
                                          else
                                            ⟨recordedCommands engine, true, [],
                                              some .bufferRead⟩
                                        else
                                          ⟨recordedCommands engine, false, [],
                                            some .submit⟩
                                      else
                                        ⟨recordedCommands engine, false, [],
                                          some .cmdBufferBuild⟩
                                    else
                                      ⟨(recordedCommands engine).take 5, false, [],
                                        some .copyCmd⟩
                                  else
                                    ⟨(recordedCommands engine).take 4, false, [],
                                      some .endRenderPassCmd⟩
                                else
                                  ⟨(recordedCommands engine).take 3, false, [],
                                    some .drawCmd⟩
                              else ⟨[], false, [], some .beginRenderPassCmd⟩
                            else ⟨[], false, [], some .builderCreate⟩
                          else ⟨[], false, [], some .pipelineBuild⟩
                  else ⟨[], false, [], some .framebufferCreate⟩
                else ⟨[], false, [], some .viewCreate⟩
              else ⟨[], false, [], some .imageCreate⟩
            else ⟨[], false, [], some .renderPassCreate⟩
          else ⟨[], false, [], some .fragmentShaderLoad⟩
        else ⟨[], false, [], some .vertexShaderLoad⟩
      else ⟨[], false, [], some .outputBufferAlloc⟩
    else ⟨[], false, [], some .vertexBufferAlloc⟩
  else ⟨[], false, [], some .engineNew⟩

/-- The result of a fully successful run. -/
def successResult (engine : ComputeEngine)
    (gpu : List Command → Nat → Nat) : RunResult :=
  ⟨recordedCommands engine, true,
    [⟨ "triangle.png", ⟨1024, 1024, .Rgba8, readback engine gpu⟩⟩], none⟩

/-- `image.save` semantics on the file system: each write replaces
whatever was stored under its path. -/
def applyWrites (ws : List FileWrite) (fs : String → Option PngImage) :
    String → Option PngImage :=
  ws.foldl (fun f w => fun n => if n = w.path then some w.image else f n) fs

/-- The environment in which every external call succeeds. -/
def env0 : Env :=
  ⟨true, true, true, true, true, true, true, true, true, true, true, true,
   true, true, true, true, true, true, true⟩

/-- A sample engine (queue family index 0). -/
def engine0 : ComputeEngine := ⟨0⟩

/-- A sample GPU semantics: the output buffer reads back all zeroes. -/
def gpu0 : List Command → Nat → Nat := fun _ _ => 0

/-- An environment in which allocating the vertex buffer fails. -/
def envNoVertexBuffer : Env := { env0 with vertexBufferOk := false }

/-- An environment in which allocating the output buffer fails. -/
def envNoOutputBuffer : Env := { env0 with outputBufferOk := false }

theorem length_readback (engine : ComputeEngine)
    (gpu : List Command → Nat → Nat) :
    (readback engine gpu).length = 1024 * 1024 * 4 := by
  simp [readback]

theorem from_raw_readback (engine : ComputeEngine)
    (gpu : List Command → Nat → Nat) :
    ImageBuffer.from_raw 1024 1024 (readback engine gpu) =
      some ⟨1024, 1024, .Rgba8, readback engine gpu⟩ := by
  simp [ImageBuffer.from_raw, length_readback]

theorem shader_vertex_entry :
    shader_vertex_module.entry_point "main" =
      some ⟨.vertexStage, "main"⟩ := by
  simp [ShaderModule.entry_point, shader_vertex_module]

theorem shader_fragment_entry :
    shader_fragment_module.entry_point "main" =
      some ⟨.fragmentStage, "main"⟩ := by
  simp [ShaderModule.entry_point, shader_fragment_module]

theorem subpass_from_zero :
    Subpass.from render_pass 0 = some ⟨render_pass, 0⟩ := by
  simp [Subpass.from, render_pass]

theorem entrypoint_allOk (engine : ComputeEngine) (env : Env)
    (gpu : List Command → Nat → Nat) (h : allOk env = true) :
    entrypoint engine env gpu = successResult engine gpu := by
  obtain ⟨e1, e2, e3, e4, e5, e6, e7, e8, e9, e10, e11, e12, e13, e14,
    e15, e16, e17, e18, e19⟩ := env
  simp only [allOk, Bool.and_eq_true, and_assoc] at h
  obtain ⟨h1, h2, h3, h4, h5, h6, h7, h8, h9, h10, h11, h12, h13, h14,
    h15, h16, h17, h18, h19⟩ := h
  subst h1 h2 h3 h4 h5 h6 h7 h8 h9 h10 h11 h12 h13 h14 h15 h16 h17 h18 h19
  simp [entrypoint, successResult, ShaderModule.entry_point,
    shader_vertex_module, shader_fragment_module, Subpass.from, render_pass,
    from_raw_readback]

/-- Recognizer for vertex-buffer-binding commands. -/
def Command.isBindVertex : Command → Bool
  | .bindVertexBuffers _ _ => true
  | _ => false

/-- Recognizer for draw commands. -/
def Command.isDraw : Command → Bool
  | .draw _ _ _ _ => true
  | _ => false

/-- C1: on a fully successful run, the single submitted command buffer
records exactly six commands in strict order — begin render pass on the
framebuffer with a clear of the color attachment, bind the graphics
pipeline, bind the vertex buffer at binding slot 0, draw 3 vertices and 1
instance starting at vertex 0 and instance 0, end the render pass, and
copy the rendered image into the output buffer — and nothing else. -/
theorem c1_six_commands_in_order (engine : ComputeEngine) (env : Env)
    (gpu : List Command → Nat → Nat) (h : allOk env = true) :
    (entrypoint engine env gpu).commands =
      [ Command.beginRenderPass
          ⟨[some (ClearValue.Float 0.0 0.0 1.0 1.0)], framebuffer engine⟩
          .Inline
      , Command.bindPipelineGraphics pipeline
      , Command.bindVertexBuffers 0 vertex_buffer
      , Command.draw 3 1 0 0
      , Command.endRenderPass
      , Command.copyImageToBuffer ⟨image engine, output_buffer⟩ ] ∧
    (entrypoint engine env gpu).submitted = true := by
  rw [entrypoint_allOk engine env gpu h]
  exact ⟨rfl, rfl⟩

/-- Witness for C1 at a concrete environment. -/
theorem c1_six_commands_in_order_witness :
    allOk env0 = true ∧
    ((entrypoint engine0 env0 gpu0).commands =
      [ Command.beginRenderPass
          ⟨[some (ClearValue.Float 0.0 0.0 1.0 1.0)], framebuffer engine0⟩
          .Inline
      , Command.bindPipelineGraphics pipeline
      , Command.bindVertexBuffers 0 vertex_buffer
      , Command.draw 3 1 0 0
      , Command.endRenderPass
      , Command.copyImageToBuffer ⟨image engine0, output_buffer⟩ ] ∧
    (entrypoint engine0 env0 gpu0).submitted = true) :=
  ⟨by decide, c1_six_commands_in_order engine0 env0 gpu0 (by decide)⟩

/-- C2: on a fully successful run the program writes exactly one file,
named `triangle.png` (a relative path, hence the working directory), whose
image is exactly 1024×1024 in `Rgba<u8>` format built from a byte buffer
of exactly `1024 * 1024 * 4` bytes; storing it replaces any previous file
content under the same name. -/
theorem c2_single_png_file (engine : ComputeEngine) (env : Env)
    (gpu : List Command → Nat → Nat) (h : allOk env = true) :
    ∃ img : PngImage,
      (entrypoint engine env gpu).files = [⟨ "triangle.png", img⟩] ∧
      img.width = 1024 ∧ img.height = 1024 ∧
      img.pixel_format = PixelFormat.Rgba8 ∧
      img.data.length = 1024 * 1024 * 4 ∧
      ∀ fs : String → Option PngImage,
        applyWrites (entrypoint engine env gpu).files fs "triangle.png" =
          some img := by
  rw [entrypoint_allOk engine env gpu h]
  refine ⟨⟨1024, 1024, .Rgba8, readback engine gpu⟩, ?_, ?_, ?_, ?_, ?_, ?_⟩
  · rfl
  · rfl
  · rfl
  · rfl
  · simp [readback]
  · intro fs
    simp [applyWrites, successResult]

/-- Witness for C2 at a concrete environment. -/
theorem c2_single_png_file_witness :
    allOk env0 = true ∧
    (∃ img : PngImage,
      (entrypoint engine0 env0 gpu0).files = [⟨ "triangle.png", img⟩] ∧
      img.width = 1024 ∧ img.height = 1024 ∧
      img.pixel_format = PixelFormat.Rgba8 ∧
      img.data.length = 1024 * 1024 * 4 ∧
      ∀ fs : String → Option PngImage,
        applyWrites (entrypoint engine0 env0 gpu0).files fs "triangle.png" =
          some img) :=
  ⟨by decide, c2_single_png_file engine0 env0 gpu0 (by decide)⟩

/-- C3: the vertex buffer is created from the fixed ordered list of
exactly 3 vertices with positions `[-0.5, -0.5]`, `[0.0, 0.5]`,
`[0.5, -0.25]`, and the only vertex-buffer binding the recorded command
buffer contains binds exactly this buffer at slot 0. -/
theorem c3_fixed_three_vertices (engine : ComputeEngine) (env : Env)
    (gpu : List Command → Nat → Nat) (h : allOk env = true) :
    vertex_buffer.data =
      [⟨(-0.5, -0.5)⟩, ⟨(0.0, 0.5)⟩, ⟨(0.5, -0.25)⟩] ∧
    (entrypoint engine env gpu).commands.filter Command.isBindVertex =
      [Command.bindVertexBuffers 0 vertex_buffer] := by
  rw [entrypoint_allOk engine env gpu h]
  exact ⟨rfl, by simp [successResult, recordedCommands, Command.isBindVertex]⟩

/-- Witness for C3 at a concrete environment. -/
theorem c3_fixed_three_vertices_witness :
    allOk env0 = true ∧
    (vertex_buffer.data =
      [⟨(-0.5, -0.5)⟩, ⟨(0.0, 0.5)⟩, ⟨(0.5, -0.25)⟩] ∧
    (entrypoint engine0 env0 gpu0).commands.filter Command.isBindVertex =
      [Command.bindVertexBuffers 0 vertex_buffer]) :=
  ⟨by decide, c3_fixed_three_vertices engine0 env0 gpu0 (by decide)⟩

/-- C4: the clear value recorded when beginning the render pass is the
fixed constant RGBA `(0.0, 0.0, 1.0, 1.0)` (blue, fully opaque), supplied
for the render pass's single color attachment. -/
theorem c4_clear_color_blue (engine : ComputeEngine) (env : Env)
    (gpu : List Command → Nat → Nat) (h : allOk env = true) :
    (entrypoint engine env gpu).commands.head? =
      some (Command.beginRenderPass
        ⟨[some (ClearValue.Float 0.0 0.0 1.0 1.0)], framebuffer engine⟩
        .Inline) ∧
    render_pass.attachments.length = 1 := by
  rw [entrypoint_allOk engine env gpu h]
  exact ⟨rfl, rfl⟩

/-- Witness for C4 at a concrete environment. -/
theorem c4_clear_color_blue_witness :
    allOk env0 = true ∧
    ((entrypoint engine0 env0 gpu0).commands.head? =
      some (Command.beginRenderPass
        ⟨[some (ClearValue.Float 0.0 0.0 1.0 1.0)], framebuffer engine0⟩
        .Inline) ∧
    render_pass.attachments.length = 1) :=
  ⟨by decide, c4_clear_color_blue engine0 env0 gpu0 (by decide)⟩

/-- C5: every fallible step is fatal — whenever a run ends at some failed
step, no output file (partial or otherwise) has been written — and if
resource allocation (vertex buffer or output buffer) fails, in addition no
draw command is ever recorded. -/
theorem c5_first_failure_fatal (engine : ComputeEngine) (env : Env)
    (gpu : List Command → Nat → Nat) :
    ((entrypoint engine env gpu).failedAt.isSome = true →
      (entrypoint engine env gpu).files = []) ∧
    ((env.vertexBufferOk = false ∨ env.outputBufferOk = false) →
      (∀ a b c d,
        Command.draw a b c d ∉ (entrypoint engine env gpu).commands) ∧
      (entrypoint engine env gpu).files = []) := by
  obtain ⟨e1, e2, e3, e4, e5, e6, e7, e8, e9, e10, e11, e12, e13, e14,
    e15, e16, e17, e18, e19⟩ := env
  constructor
  · cases e1
    case false => simp [entrypoint]
    cases e2
    case false => simp [entrypoint]
    cases e3
    case false => simp [entrypoint]
    cases e4
    case false => simp [entrypoint]
    cases e5
    case false => simp [entrypoint]
    cases e6
    case false => simp [entrypoint]
    cases e7
    case false => simp [entrypoint]
    cases e8
    case false => simp [entrypoint]
    cases e9
    case false => simp [entrypoint]
    cases e10
    case false =>
      simp [entrypoint, shader_vertex_entry, shader_fragment_entry,
        subpass_from_zero]
    cases e11
    case false =>
      simp [entrypoint, shader_vertex_entry, shader_fragment_entry,
        subpass_from_zero]
    cases e12
    case false =>
      simp [entrypoint, shader_vertex_entry, shader_fragment_entry,
        subpass_from_zero]
    cases e13
    case false =>
      simp [entrypoint, shader_vertex_entry, shader_fragment_entry,
        subpass_from_zero]
    cases e14
    case false =>
      simp [entrypoint, shader_vertex_entry, shader_fragment_entry,
        subpass_from_zero]
    cases e15
    case false =>
      simp [entrypoint, shader_vertex_entry, shader_fragment_entry,
        subpass_from_zero]
    cases e16
    case false =>
      simp [entrypoint, shader_vertex_entry, shader_fragment_entry,
        subpass_from_zero]
    cases e17
    case false =>
      simp [entrypoint, shader_vertex_entry, shader_fragment_entry,
        subpass_from_zero]
    cases e18
    case false =>
      simp [entrypoint, shader_vertex_entry, shader_fragment_entry,
        subpass_from_zero]
    cases e19
    case false =>
      simp [entrypoint, shader_vertex_entry, shader_fragment_entry,
        subpass_from_zero, from_raw_readback]
    simp [entrypoint, shader_vertex_entry, shader_fragment_entry,
      subpass_from_zero, from_raw_readback]
  · intro hvo
    rcases hvo with h | h
    · subst h
      cases e1
      case false => simp [entrypoint]
      simp [entrypoint]
    · subst h
      cases e1
      case false => simp [entrypoint]
      cases e2
      case false => simp [entrypoint]
      simp [entrypoint]

/-- Witness for C5 at a concrete environment whose vertex-buffer
allocation fails. -/
theorem c5_first_failure_fatal_witness :
    ((entrypoint engine0 envNoVertexBuffer gpu0).failedAt.isSome = true ∧
      (entrypoint engine0 envNoVertexBuffer gpu0).files = []) ∧
    (envNoVertexBuffer.vertexBufferOk = false ∨
      envNoVertexBuffer.outputBufferOk = false) ∧
    ((∀ a b c d,
        Command.draw a b c d ∉
          (entrypoint engine0 envNoVertexBuffer gpu0).commands) ∧
      (entrypoint engine0 envNoVertexBuffer gpu0).files = []) :=
  ⟨⟨by decide,
    (c5_first_failure_fatal engine0 envNoVertexBuffer gpu0).1 (by decide)⟩,
   Or.inl rfl,
   (c5_first_failure_fatal engine0 envNoVertexBuffer gpu0).2 (Or.inl rfl)⟩

/-- C6: the render pass has exactly one color attachment with load
operation `Clear`, store operation `Store`, format `R8G8B8A8_UNORM` and
sample count 1, its single subpass has no depth/stencil attachment, and
the render-target image is created with the same format and 1024×1024
dimensions. -/
theorem c6_render_pass_config (engine : ComputeEngine) :
    render_pass.attachments =
      [⟨LoadOp.Clear, StoreOp.Store, Format.R8G8B8A8_UNORM, 1⟩] ∧
    render_pass.subpasses = [⟨[0], none⟩] ∧
    (image engine).format = Format.R8G8B8A8_UNORM ∧
    (image engine).dimensions = ImageDimensions.Dim2d 1024 1024 1 :=
  ⟨rfl, rfl, rfl, rfl⟩

/-- C7: for the fixed inputs, the embedded program is deterministic — two
runs on the same engine whose GPU semantics agree on the (fixed) submitted
command list produce identical results, in particular byte-identical
output image contents. -/
theorem c7_deterministic_output (engine : ComputeEngine) (env1 env2 : Env)
    (gpu1 gpu2 : List Command → Nat → Nat)
    (h1 : allOk env1 = true) (h2 : allOk env2 = true)
    (hgpu : gpu1 (recordedCommands engine) = gpu2 (recordedCommands engine)) :
    entrypoint engine env1 gpu1 = entrypoint engine env2 gpu2 := by
  rw [entrypoint_allOk engine env1 gpu1 h1,
    entrypoint_allOk engine env2 gpu2 h2]
  simp [successResult, readback, hgpu]

/-- Witness for C7 at a concrete environment. -/
theorem c7_deterministic_output_witness :
    allOk env0 = true ∧
    gpu0 (recordedCommands engine0) = gpu0 (recordedCommands engine0) ∧
    entrypoint engine0 env0 gpu0 = entrypoint engine0 env0 gpu0 :=
  ⟨by decide, rfl,
   c7_deterministic_output engine0 env0 env0 gpu0 gpu0 (by decide)
     (by decide) rfl⟩

/-- C8: exactly one viewport is defined — origin `(0, 0)`, dimensions
`1024 × 1024` matching the render-target image and the output-buffer
sizing, depth range `0..1` — it is baked into the pipeline as a fixed
viewport, and the recorded command buffer binds that pipeline and contains
exactly one draw. -/
theorem c8_fixed_viewport (engine : ComputeEngine) (env : Env)
    (gpu : List Command → Nat → Nat) (h : allOk env = true) :
    viewport = ⟨(0.0, 0.0), (1024.0, 1024.0), (0.0, 1.0)⟩ ∧
    pipeline.viewport_state =
      ViewportState.viewport_fixed_scissor_irrelevant [viewport] ∧
    (image engine).dimensions = ImageDimensions.Dim2d 1024 1024 1 ∧
    output_buffer.data.length = 1024 * 1024 * 4 ∧
    (entrypoint engine env gpu).commands.filter Command.isDraw =
      [Command.draw 3 1 0 0] ∧
    Command.bindPipelineGraphics pipeline ∈
      (entrypoint engine env gpu).commands := by
  rw [entrypoint_allOk engine env gpu h]
  refine ⟨rfl, rfl, rfl, ?_, ?_, ?_⟩
  · simp only [output_buffer, List.length_map, List.length_range]
  · simp [successResult, recordedCommands, Command.isDraw]
  · simp [successResult, recordedCommands]

/-- Witness for C8 at a concrete environment. -/
theorem c8_fixed_viewport_witness :
    allOk env0 = true ∧
    (viewport = ⟨(0.0, 0.0), (1024.0, 1024.0), (0.0, 1.0)⟩ ∧
    pipeline.viewport_state =
      ViewportState.viewport_fixed_scissor_irrelevant [viewport] ∧
    (image engine0).dimensions = ImageDimensions.Dim2d 1024 1024 1 ∧
    output_buffer.data.length = 1024 * 1024 * 4 ∧
    (entrypoint engine0 env0 gpu0).commands.filter Command.isDraw =
      [Command.draw 3 1 0 0] ∧
    Command.bindPipelineGraphics pipeline ∈
      (entrypoint engine0 env0 gpu0).commands) :=
  ⟨by decide, c8_fixed_viewport engine0 env0 gpu0 (by decide)⟩

/-- The names the `use` declarations of `src/shared/src/lib.rs`
(lines 3-22) bring into scope. -/
def importedNames : List String :=
  [ "BaseEngine", "ComputeEngine", "ImageBuffer", "Rgba", "Vertex",
    "BufferUsage", "CpuAccessibleBuffer", "AutoCommandBufferBuilder",
    "CopyImageToBufferInfo", "RenderPassBeginInfo", "SubpassContents",
    "Format", "ImageView", "ImageDimensions", "StorageImage",
    "InputAssemblyState", "BuffersDefinition", "Viewport", "ViewportState",
    "GraphicsPipeline", "Framebuffer", "FramebufferCreateInfo", "Subpass"]

/-- Path roots referenced only inside `#[cfg(debug_assertions)]` code of
`entrypoint` (`Instant::now()` at lines 197 and 204). -/
def debugOnlyPathRoots : List String := [ "Instant"]

/-- The readback-and-save step (lines 196-212): interpret the byte buffer
as a 1024×1024 RGBA8 image and write `triangle.png`.  A
diagnostics-enabled (debug) build additionally measures and logs elapsed
wall-clock time around the step; `debugTiming` selects that variant, and
the second component records whether a timing log line was emitted. -/
def saveStep (debugTiming : Bool) (bytes : List Nat) :
    Option FileWrite × Bool :=
  ((ImageBuffer.from_raw 1024 1024 bytes).map
      (fun img => ⟨ "triangle.png", img⟩),
   debugTiming)

/-- C9: the timing instrumentation indeed cannot change the saved image
bytes — the debug and release variants of the readback-and-save step
produce the same file for every byte buffer — but the debug variant is
not well-formed as written: the debug-only code refers to the path root
`Instant`, which no `use` declaration of the file imports, so a build
with `debug_assertions` fails name resolution. -/
theorem c9_debug_timing_bug :
    ( "Instant" ∈ debugOnlyPathRoots ∧ "Instant" ∉ importedNames) ∧
    ∀ b : List Nat, (saveStep true b).1 = (saveStep false b).1 :=
  ⟨⟨by decide, by decide⟩, fun _ => rfl⟩

/-- C10: before submission the CPU-readable output buffer is initialized
to exactly `1024 * 1024 * 4` bytes, all zero, with transfer-destination
usage only; and if its allocation fails, nothing is submitted, recorded
or written. -/
theorem c10_output_buffer_zero_init :
    output_buffer.data = List.replicate (1024 * 1024 * 4) 0 ∧
    output_buffer.usage = { transfer_dst := true } ∧
    (entrypoint engine0 envNoOutputBuffer gpu0).submitted = false ∧
    (entrypoint engine0 envNoOutputBuffer gpu0).commands = [] ∧
    (entrypoint engine0 envNoOutputBuffer gpu0).files = [] := by
  refine ⟨?_, rfl, rfl, rfl, rfl⟩
  simp only [output_buffer, List.map_const', List.length_range]

end Src

end TrianglePipeline
